import Mathlib

/-!
Verification development for the fraud-detection multi-agent pipeline
(backend/app): a shallow embedding of the decision core — the stage
functions, the orchestrator wrapper, the HITL gate and store operations,
and the governed-search allowlist — together with theorems about the
behaviour the specification describes.

Modelling conventions:
* Python floats are modelled as exact rationals (ℚ); float representation
  error is not modelled.  `round(x, 2)` is modelled as round-half-to-even
  at two decimal places (Python's rounding mode) on the exact rational.
* Python dicts with known keys are modelled as records of `Option` fields
  (`none` = key absent); `dict.get(k, default)` becomes an `Option.getD`.
* A Python function that can raise is modelled as returning
  `Except String α` (the `String` is the exception message; exact message
  texts are abbreviated).
* Wall-clock data (timestamps of audit events, durations) and the
  free-text `input_summary`/`output_summary` strings are irrelevant to
  every property below; summaries are abbreviated to their signal count
  and the clock fields are omitted.
* External I/O (the vector index, the web-search provider, the optional
  LLM) is passed in as explicit data: the response the dependency would
  return for the run, `Except`-valued where the dependency can raise.
  With no LLM configured the debate and explainability stages take their
  deterministic fallback path, which is what is embedded here.
-/

namespace FraudSpec

/-! ## Numeric helpers -/

/-- Round-half-to-even of a rational to an integer (the rounding of
Python's `round`). -/
def halfEven (y : ℚ) : ℤ :=
  if y - (Int.floor y : ℚ) > 1/2 then Int.floor y + 1
  else if y - (Int.floor y : ℚ) < 1/2 then Int.floor y
  else if Int.floor y % 2 = 0 then Int.floor y else Int.floor y + 1

/-- Python's `round(x, 2)` on exact rationals. -/
def round2 (x : ℚ) : ℚ := ((halfEven (x * 100) : ℤ) : ℚ) / 100

/-- Python's `int(q)` (truncation toward zero) on an exact rational. -/
def pyInt (q : ℚ) : ℤ := q.num.tdiv q.den

/-! ## String helpers (Python `in`, `.upper()`, `.lower()`, `.endswith`) -/

/-- Substring test on character lists: true iff `needle` occurs
contiguously in `hay` (Python `needle in hay`). -/
def listContains (hay needle : List Char) : Bool :=
  match hay with
  | [] => needle.isEmpty
  | _ :: t => if needle.isPrefixOf hay then true else listContains t needle

/-- Python `needle in hay` for strings. -/
def strContains (hay needle : String) : Bool := listContains hay.toList needle.toList

/-- Python `s.upper()` (ASCII case mapping). -/
def strUpper (s : String) : String := ⟨s.toList.map Char.toUpper⟩

/-- Python `s.lower()` (ASCII case mapping). -/
def strLower (s : String) : String := ⟨s.toList.map Char.toLower⟩

/-- Bool-valued suffix test on strings (Python `s.endswith(suf)`). -/
def strSuffix (suf s : String) : Bool := suf.toList.reverse.isPrefixOf s.toList.reverse

/-! ## Data model (backend/app/orchestration/state.py, api/schemas.py) -/

/-- One debate position (`DebatePosition` TypedDict). -/
structure DebatePosition where
  recommended_decision : String
  confidence_delta : ℚ
  reasoning : String
  deriving DecidableEq

/-- Both debate slots (`DebateState` TypedDict). -/
structure DebateState where
  pro_fraud : DebatePosition
  pro_customer : DebatePosition
  deriving DecidableEq

/-- Human-in-the-loop flag (`HITLState` TypedDict). -/
structure HITLState where
  required : Bool
  reason : String
  deriving DecidableEq

/-- The `metrics` dict: every known key, `none` when the key is absent.
`policy_hint` conflates "absent" and "present but null", which the code
never distinguishes (both read back as `None`). -/
structure Metrics where
  amount_ratio : Option ℚ := none
  hour : Option ℤ := none
  hour_outside : Option Bool := none
  new_country : Option Bool := none
  new_device : Option Bool := none
  behavior_risk : Option ℚ := none
  policy_hint : Option String := none
  deriving DecidableEq

/-- `metrics.get("amount_ratio", 1.0)`. -/
def Metrics.amountRatioD (m : Metrics) : ℚ := m.amount_ratio.getD 1

/-- `metrics.get("hour_outside", False)`. -/
def Metrics.hourOutsideD (m : Metrics) : Bool := m.hour_outside.getD false

/-- `metrics.get("new_country", False)`. -/
def Metrics.newCountryD (m : Metrics) : Bool := m.new_country.getD false

/-- `metrics.get("new_device", False)`. -/
def Metrics.newDeviceD (m : Metrics) : Bool := m.new_device.getD false

/-- `metrics.get("behavior_risk", 0.0)`. -/
def Metrics.behaviorRiskD (m : Metrics) : ℚ := m.behavior_risk.getD 0

/-- The consolidated transaction + customer-behaviour dict.  Fields the
context stage reads with `consolidated[...]` (raising `KeyError` when
absent) are `Option`s; `merchant_id`/`country` are also read with `.get`
by the threat-intel stage. -/
structure Consolidated where
  amount : Option ℚ := none
  usual_amount_avg : Option ℚ := none
  country : Option String := none
  device_id : Option String := none
  timestamp : Option String := none
  usual_hours_start : Option ℤ := none
  usual_hours_end : Option ℤ := none
  usual_countries : Option (List String) := none
  usual_devices : Option (List String) := none
  merchant_id : Option String := none
  deriving DecidableEq

/-- Internal policy citation. -/
structure CitationInternal where
  policy_id : String
  chunk_id : String
  version : String
  deriving DecidableEq

/-- External web citation (a search result's `{url, summary}` pair,
written without braces here). -/
structure CitationExternal where
  url : String
  summary : String
  deriving DecidableEq

/-- The evidence snapshot the aggregation stage stores. -/
structure EvidenceSnapshot where
  signals : List String
  metrics : Metrics
  citations_internal : List CitationInternal
  citations_external : List CitationExternal
  deriving DecidableEq

/-- The shared `GraphState` threaded through the pipeline. -/
structure GraphState where
  transaction_id : String
  consolidated : Consolidated
  signals : List String
  metrics : Metrics
  citations_internal : List CitationInternal
  citations_external : List CitationExternal
  evidence : Option EvidenceSnapshot
  debate : DebateState
  decision : Option String
  confidence : Option ℚ
  explanation_customer : Option String
  explanation_audit : Option String
  ai_summary : Option String
  hitl : HITLState
  deriving DecidableEq

/-- `create_initial_state` (orchestration/state.py). -/
def create_initial_state (transaction_id : String) (consolidated : Consolidated) : GraphState where
  transaction_id := transaction_id
  consolidated := consolidated
  signals := []
  metrics := {}
  citations_internal := []
  citations_external := []
  evidence := none
  debate :=
    { pro_fraud := { recommended_decision := "", confidence_delta := 0, reasoning := "" }
      pro_customer := { recommended_decision := "", confidence_delta := 0, reasoning := "" } }
  decision := none
  confidence := none
  explanation_customer := none
  explanation_audit := none
  ai_summary := none
  hitl := { required := false, reason := "" }

/-! ## Timestamp parsing (agents/transaction_context.py, extract_hour)

`extract_hour` calls `datetime.fromisoformat(timestamp.replace("Z",
"+00:00"))` and returns `.hour`, falling back to 12 on a parse error.
The parser below embeds the ISO-8601 subset the repository's data and
tests use (`YYYY-MM-DD`, optionally followed by `T` or a space and
`HH[:MM[:SS[.frac]]]` with an optional `+HH:MM`/`-HH:MM[:SS]` offset),
validating calendar ranges as `fromisoformat` does. -/

/-- Decimal digit value of a character, `none` when not a digit. -/
def dig (c : Char) : Option ℕ := if c.isDigit then some (c.toNat - 48) else none

/-- Gregorian leap year. -/
def isLeap (y : ℕ) : Bool := y % 4 = 0 && (y % 100 ≠ 0 || y % 400 = 0)

/-- Days in a month of a year. -/
def daysInMonth (y m : ℕ) : ℕ :=
  if m = 2 then (if isLeap y then 29 else 28)
  else if m = 4 || m = 6 || m = 9 || m = 11 then 30
  else 31

/-- A UTC-offset suffix `+HH:MM` or `-HH:MM[:SS]`. -/
def validOffset (cs : List Char) : Bool :=
  match cs with
  | s :: h1 :: h2 :: ':' :: m1 :: m2 :: rest =>
    (s = '+' || s = '-') &&
    (match dig h1, dig h2, dig m1, dig m2 with
     | some a, some b, some c, some d =>
       (a * 10 + b ≤ 23 && c * 10 + d ≤ 59) &&
       (match rest with
        | [] => true
        | ':' :: s1 :: s2 :: [] =>
          match dig s1, dig s2 with
          | some e, some f => e * 10 + f ≤ 59
          | _, _ => false
        | _ => false)
     | _, _, _, _ => false)
  | _ => false

/-- A fractional-second tail: one or more digits, then end or an offset. -/
def validFrac (cs : List Char) : Bool :=
  match cs with
  | [] => false
  | c :: rest =>
    if c.isDigit then
      match rest with
      | [] => true
      | r :: _ => if r.isDigit then validFrac rest else validOffset rest
    else false

/-- The tail after `HH:MM:SS`. -/
def validAfterSecond (cs : List Char) : Bool :=
  match cs with
  | [] => true
  | '.' :: t => validFrac t
  | ',' :: t => validFrac t
  | t => validOffset t

/-- The tail after `HH:MM`: end, `:SS…`, or an offset. -/
def validAfterMinute (cs : List Char) : Bool :=
  match cs with
  | [] => true
  | ':' :: s1 :: s2 :: rest =>
    (match dig s1, dig s2 with
     | some e, some f => e * 10 + f ≤ 59
     | _, _ => false) && validAfterSecond rest
  | t => validOffset t

/-- The time part `HH…`: returns the hour when the whole tail is valid. -/
def parseTimeHour (cs : List Char) : Option ℕ :=
  match cs with
  | h1 :: h2 :: rest =>
    match dig h1, dig h2 with
    | some a, some b =>
      let hour := a * 10 + b
      let ok : Bool :=
        hour ≤ 23 &&
        (match rest with
         | [] => true
         | ':' :: m1 :: m2 :: t =>
           (match dig m1, dig m2 with
            | some c, some d => c * 10 + d ≤ 59
            | _, _ => false) && validAfterMinute (':' :: m1 :: m2 :: t).tail.tail.tail
         | t => validOffset t)
      if ok then some hour else none
    | _, _ => none
  | _ => none

/-- Hour-of-day of an ISO-8601 timestamp, `none` when it does not parse. -/
def parseIsoHour (cs : List Char) : Option ℕ :=
  match cs with
  | y1 :: y2 :: y3 :: y4 :: '-' :: m1 :: m2 :: '-' :: d1 :: d2 :: rest =>
    match dig y1, dig y2, dig y3, dig y4, dig m1, dig m2, dig d1, dig d2 with
    | some a, some b, some c, some d, some e, some f, some g, some h =>
      let year := a * 1000 + b * 100 + c * 10 + d
      let mon := e * 10 + f
      let day := g * 10 + h
      if 1 ≤ mon && mon ≤ 12 && 1 ≤ day && day ≤ daysInMonth year mon then
        match rest with
        | [] => some 0
        | sep :: t => if sep = 'T' || sep = ' ' then parseTimeHour t else none
      else none
    | _, _, _, _, _, _, _, _ => none
  | _ => none

/-- Python `timestamp.replace("Z", "+00:00")`. -/
def replaceZ (s : String) : String :=
  ⟨s.toList.foldr (fun c acc => (if c = 'Z' then "+00:00".toList else [c]) ++ acc) []⟩

/-- `extract_hour` (agents/transaction_context.py): hour of day, or 12
when the timestamp does not parse. -/
def extract_hour (timestamp : String) : ℤ :=
  match parseIsoHour (replaceZ timestamp).toList with
  | some h => (h : ℤ)
  | none => 12

/-! ## Transaction Context stage (agents/transaction_context.py) -/

/-- A `dict[key]` read: `KeyError` when the key is absent. -/
def req {α : Type} (key : String) : Option α → Except String α
  | some a => .ok a
  | none => .error ("KeyError: " ++ key)

/-- `run_transaction_context_agent`: derives `amount_ratio`, `hour`,
`hour_outside`, `new_country`, `new_device` and the four context signals. -/
def run_transaction_context_agent (s : GraphState) : Except String GraphState := do
  let amount ← req "amount" s.consolidated.amount
  let usual_amount_avg ← req "usual_amount_avg" s.consolidated.usual_amount_avg
  let country ← req "country" s.consolidated.country
  let device_id ← req "device_id" s.consolidated.device_id
  let timestamp ← req "timestamp" s.consolidated.timestamp
  let usual_hours_start ← req "usual_hours_start" s.consolidated.usual_hours_start
  let usual_hours_end ← req "usual_hours_end" s.consolidated.usual_hours_end
  let usual_countries ← req "usual_countries" s.consolidated.usual_countries
  let usual_devices ← req "usual_devices" s.consolidated.usual_devices
  let hour := extract_hour timestamp
  let amount_ratio : ℚ := if usual_amount_avg > 0 then amount / usual_amount_avg else 999
  let hour_outside : Bool := decide (hour < usual_hours_start ∨ hour > usual_hours_end)
  let new_country : Bool := decide (country ∉ usual_countries)
  let new_device : Bool := decide (device_id ∉ usual_devices)
  let metrics :=
    { s.metrics with
        amount_ratio := some (round2 amount_ratio)
        hour := some hour
        hour_outside := some hour_outside
        new_country := some new_country
        new_device := some new_device }
  let signals := s.signals
    ++ (if amount_ratio > 3 then ["Monto fuera de rango"] else [])
    ++ (if hour_outside then ["Horario no habitual"] else [])
    ++ (if new_country then ["País no habitual"] else [])
    ++ (if new_device then ["Dispositivo nuevo"] else [])
  return { s with metrics := metrics, signals := signals }

/-! ## Behavioural Pattern stage (agents/behavioral_pattern.py) -/

/-- `run_behavioral_pattern_agent`: folds the four behavioural axes into
`behavior_risk`, capped at 1.0 and stored rounded to 2 decimals. -/
def run_behavioral_pattern_agent (s : GraphState) : GraphState :=
  let amount_ratio := s.metrics.amountRatioD
  let hour_outside := s.metrics.hourOutsideD
  let new_device := s.metrics.newDeviceD
  let new_country := s.metrics.newCountryD
  let behavior_risk : ℚ :=
    (if amount_ratio > 5 then 0.35
     else if amount_ratio > 3 then 0.25
     else if amount_ratio > 2 then 0.15 else 0)
    + (if hour_outside then 0.15 else 0)
    + (if new_device then 0.20 else 0)
    + (if new_country then 0.25 else 0)
  let behavior_risk := min 1 behavior_risk
  { s with metrics := { s.metrics with behavior_risk := some (round2 behavior_risk) } }

/-! ## Policy RAG stage (agents/policy_rag.py)

The query string the stage builds is consumed only by the external vector
index; the index's response for the run is the `results` parameter. -/

/-- A retrieved document's metadata dict. -/
structure DocMetadata where
  policy_id : Option String := none
  chunk_id : Option String := none
  version : Option String := none
  deriving DecidableEq

/-- A document returned by the vector store (rag/vector_store.py). -/
structure Document where
  content : String
  metadata : DocMetadata
  deriving DecidableEq

/-- The escalate branch guard of the hint loop: the rule text contains
`"→ ESCALATE_TO_HUMAN"` or its upper-casing contains `"ESCALATE_TO_HUMAN"`. -/
def escMatch (content : String) : Bool :=
  strContains content "→ ESCALATE_TO_HUMAN" || strContains (strUpper content) "ESCALATE_TO_HUMAN"

/-- The block branch guard of the hint loop. -/
def blkMatch (content : String) : Bool :=
  strContains content "→ BLOCK" || strContains (strUpper content) "BLOCK"

/-- The challenge branch guard of the hint loop. -/
def chalMatch (content : String) : Bool :=
  strContains content "→ CHALLENGE" || strContains (strUpper content) "CHALLENGE"

/-- One iteration of the policy-hint derivation loop over a retrieved
rule's text (the `for doc in results` body of `run_policy_rag_agent`). -/
def hintStep (hint : Option String) (content : String) : Option String :=
  if escMatch content then
    (if hint = none ∨ hint ≠ some "ESCALATE_TO_HUMAN" then some "ESCALATE_TO_HUMAN" else hint)
  else if blkMatch content then
    (if hint = none then some "BLOCK" else hint)
  else if chalMatch content then
    (if hint = none then some "CHALLENGE" else hint)
  else hint

/-- `run_policy_rag_agent`: records one internal citation per retrieved
document and derives `policy_hint` by the loop above. -/
def run_policy_rag_agent (results : List Document) (s : GraphState) : GraphState :=
  let citations_internal := results.map (fun doc =>
    { policy_id := doc.metadata.policy_id.getD ""
      chunk_id := doc.metadata.chunk_id.getD "1"
      version := doc.metadata.version.getD "" : CitationInternal })
  let policy_hint := results.foldl (fun hint doc => hintStep hint doc.content) none
  { s with
      citations_internal := citations_internal
      metrics := { s.metrics with policy_hint := policy_hint } }

/-! ## Threat Intel stage (agents/threat_intel.py)

The governed search's response for the run is the `results` parameter
(the search service never raises, see `governed_search` below). -/

/-- `run_threat_intel_agent`: stores the external citations and appends
the signal `"Alerta externa"` exactly when any result came back. -/
def run_threat_intel_agent (results : List CitationExternal) (s : GraphState) : GraphState :=
  { s with
      citations_external := results
      signals := s.signals ++ (if results = [] then [] else ["Alerta externa"]) }

/-! ## Evidence Aggregation stage (agents/evidence_aggregation.py) -/

/-- `run_evidence_aggregation_agent`: snapshots the accumulated evidence. -/
def run_evidence_aggregation_agent (s : GraphState) : GraphState :=
  { s with evidence := some (
      { signals := s.signals
        metrics := s.metrics
        citations_internal := s.citations_internal
        citations_external := s.citations_external }) }

/-! ## Debate stages (agents/debate.py, deterministic fallback path) -/

/-- `run_debate_pro_fraud_agent_mock`: recommendation, delta, reasoning. -/
def run_debate_pro_fraud_agent_mock (s : GraphState) : String × ℚ × String :=
  let amount_ratio := s.metrics.amountRatioD
  let has_external_alert := "Alerta externa" ∈ s.signals
  let has_amount_issue := "Monto fuera de rango" ∈ s.signals
  let has_hour_issue := "Horario no habitual" ∈ s.signals
  let rec_reason : String × String :=
    if has_external_alert ∧ amount_ratio > 3 then
      ("BLOCK", "Alta probabilidad de fraude: alerta externa detectada con monto significativamente elevado.")
    else if has_amount_issue ∧ has_hour_issue then
      ("CHALLENGE", "Múltiples señales de riesgo: monto y horario fuera de patrones habituales.")
    else
      ("CHALLENGE", "Señales de riesgo detectadas que requieren verificación adicional.")
  let confidence_delta : ℚ :=
    if s.signals.length ≥ 3 then 0.05
    else if s.signals.length = 2 then 0.02
    else 0
  (rec_reason.1, confidence_delta, rec_reason.2)

/-- `run_debate_pro_fraud_agent` with no LLM configured: stores the mock
position in the `pro_fraud` slot. -/
def run_debate_pro_fraud_agent (s : GraphState) : GraphState :=
  let r := run_debate_pro_fraud_agent_mock s
  { s with debate :=
      { s.debate with pro_fraud :=
          { recommended_decision := r.1, confidence_delta := r.2.1, reasoning := r.2.2 } } }

/-- `run_debate_pro_customer_agent_mock`. -/
def run_debate_pro_customer_agent_mock (s : GraphState) : String × ℚ × String :=
  let has_external_alert := "Alerta externa" ∈ s.signals
  let all_minor := ∀ sg ∈ s.signals, sg = "Horario no habitual" ∨ sg = "Dispositivo nuevo"
  let only_one_signal := s.signals.length ≤ 1
  let rec_reason : String × String :=
    if only_one_signal ∧ (s.signals.length = 0 ∨ all_minor) then
      ("APPROVE", "Bajo riesgo: señales menores que no justifican bloqueo o challenge.")
    else
      ("CHALLENGE", "Aunque el cliente tiene historial limpio, las señales detectadas requieren verificación.")
  let confidence_delta : ℚ := if ¬has_external_alert then 0.03 else 0
  (rec_reason.1, confidence_delta, rec_reason.2)

/-- `run_debate_pro_customer_agent` with no LLM configured. -/
def run_debate_pro_customer_agent (s : GraphState) : GraphState :=
  let r := run_debate_pro_customer_agent_mock s
  { s with debate :=
      { s.debate with pro_customer :=
          { recommended_decision := r.1, confidence_delta := r.2.1, reasoning := r.2.2 } } }

/-! ## Decision Arbiter stage (agents/arbiter.py) -/

/-- `run_arbiter_agent`: computes the clamped confidence, applies the
ordered decision rules (first match wins), sets the HITL flag, and stores
the confidence rounded to 2 decimals. -/
def run_arbiter_agent (s : GraphState) : GraphState :=
  let behavior_risk := s.metrics.behaviorRiskD
  let policy_hint := s.metrics.policy_hint
  let amount_ratio := s.metrics.amountRatioD
  let hour_outside := s.metrics.hourOutsideD
  let new_country := s.metrics.newCountryD
  let new_device := s.metrics.newDeviceD
  let has_external_alert := "Alerta externa" ∈ s.signals
  let confidence := behavior_risk
  let confidence := if s.citations_external = [] then confidence else confidence + 0.20
  let confidence := confidence + s.debate.pro_fraud.confidence_delta
  let confidence := confidence - s.debate.pro_customer.confidence_delta
  let confidence := max 0 (min 1 confidence)
  let decision : String :=
    if policy_hint = some "ESCALATE_TO_HUMAN" ∧ new_country ∧ new_device then
      "ESCALATE_TO_HUMAN"
    else if confidence ≥ 0.75 ∧ has_external_alert ∧ amount_ratio > 3 then
      "BLOCK"
    else if amount_ratio > 3 ∧ hour_outside then
      "CHALLENGE"
    else if confidence < 0.45 ∧ s.signals.length ≤ 1 then
      "APPROVE"
    else if confidence ≥ 0.60 then "CHALLENGE" else "ESCALATE_TO_HUMAN"
  let hitl : HITLState :=
    if decision = "ESCALATE_TO_HUMAN" then
      { required := true, reason := "Política o baja confianza requiere revisión humana" }
    else if 0.45 ≤ confidence ∧ confidence ≤ 0.60 then
      { required := true, reason := "Nivel de confianza límite requiere evaluación manual" }
    else
      { required := false, reason := "" }
  { s with
      decision := some decision
      confidence := some (round2 confidence)
      hitl := hitl }

/-! ## Audit events (api/schemas.py AuditEvent, orchestration/graph.py)

`ts` (wall-clock timestamp) and `duration_ms` are real-time data and are
omitted; the human-readable `input_summary`/`output_summary` strings are
omitted as well — no property below concerns them.  `output_json` is the
structured snapshot: on success the new state's snapshot fields, on
failure the dict holding the error message under the key `error`. -/

/-- The `output_json` snapshot of an audit event. -/
inductive OutputJson where
  | ok (signals : List String) (metrics : Metrics)
      (citations_internal : List CitationInternal)
      (citations_external : List CitationExternal)
      (decision : Option String) (confidence : Option ℚ) : OutputJson
  | err (error : String) : OutputJson
  deriving DecidableEq

/-- An audit event. -/
structure AuditEvent where
  transaction_id : String
  run_id : String
  seq : ℤ
  agent : String
  output_json : OutputJson
  deriving DecidableEq

/-- `LocalJSONAuditRepository.get_next_seq`: one more than the largest
sequence number recorded for the transaction, 1 when none exists. -/
def get_next_seq (events : List AuditEvent) (transaction_id : String) : ℤ :=
  match (events.filter (fun e => decide (e.transaction_id = transaction_id))).map (fun e => e.seq) with
  | [] => 1
  | q :: qs => qs.foldl max q + 1

/-! ## Explainability stage (agents/explainability.py, fallback path) -/

/-- The friendly-name map of `build_agent_path`. -/
def agentFriendly (a : String) : String :=
  if a = "TransactionContext" then "Context"
  else if a = "BehavioralPattern" then "Behavior"
  else if a = "PolicyRAG" then "RAG"
  else if a = "ThreatIntel" then "Web"
  else if a = "EvidenceAggregation" then "Evidence"
  else if a = "DebateProFraud" then "Debate"
  else if a = "DebateProCustomer" then "Debate"
  else if a = "Arbiter" then "Decisión"
  else if a = "Explainability" then "Explicación"
  else a

/-- `build_agent_path`: friendly names of the transaction's audit events
in order, `_error` entries skipped, duplicates (the two debate stages)
collapsed to their first occurrence. -/
def build_agent_path (events : List AuditEvent) (transaction_id : String) : String :=
  let parts := (events.filter (fun e => decide (e.transaction_id = transaction_id))).foldl
    (fun acc e =>
      if strContains e.agent "_error" then acc
      else
        let f := agentFriendly e.agent
        if acc.contains f then acc else acc ++ [f])
    []
  String.intercalate " → " parts

/-- Python `f"…:.2f"` of a two-decimal quantity (round-half-even). -/
def fmt2 (q : ℚ) : String :=
  let m := halfEven (q * 100)
  let n := m.natAbs
  let frac := n % 100
  (if m < 0 then "-" else "")
    ++ toString (n / 100) ++ "."
    ++ (if frac < 10 then "0" ++ toString frac else toString frac)

/-- Rendering of an optional string in a Python f-string (`None` when
absent). -/
def optStr (o : Option String) : String := o.getD "None"

/-- `decision_labels.get(decision, decision)`. -/
def decisionLabel (d : Option String) : String :=
  match d with
  | some "APPROVE" => "Aprobada"
  | some "CHALLENGE" => "Requiere validación"
  | some "BLOCK" => "Bloqueada"
  | some "ESCALATE_TO_HUMAN" => "Revisión humana"
  | some x => x
  | none => "None"

/-- Python `r[:150] + ('...' if len(r) > 150 else '')`. -/
def clip150 (r : String) : String :=
  String.mk (r.toList.take 150) ++ (if r.toList.length > 150 then "..." else "")

/-- The one-line reason of section 1 of the report. -/
def summaryReason (signals : List String) (decision : Option String) : String :=
  match signals with
  | [] =>
    if decision = some "APPROVE" then "Transacción dentro de parámetros normales del cliente."
    else "Requiere evaluación adicional por contexto de riesgo."
  | sg :: rest =>
    if rest.length = 0 then sg
    else
      let plural := if signals.length > 2 then "es" else ""
      sg ++ " y " ++ toString (signals.length - 1) ++ " señal" ++ plural
        ++ " adicional" ++ plural ++ " detectadas."

/-- The per-signal metric annotation of section 2. -/
def metricDetail (m : Metrics) : String :=
  match m.behavior_risk with
  | some br => " (riesgo comportamental: " ++ fmt2 br ++ ")"
  | none =>
    match m.amount_ratio with
    | some r => " (ratio: " ++ fmt2 r ++ "x)"
    | none => ""

/-- Section 3's `**Aplicación:**` sentence, keyed by decision. -/
def applicationLine (decision : Option String) : String :=
  if decision = some "CHALLENGE" then
    "Las políticas detectadas establecen umbrales de validación que aplican a esta transacción. Se requiere verificación adicional del cliente antes de aprobar.\\n"
  else if decision = some "BLOCK" then
    "Las condiciones definidas en las políticas justifican el bloqueo inmediato por alto riesgo de fraude.\\n"
  else if decision = some "ESCALATE_TO_HUMAN" then
    "Las políticas requieren escalamiento a revisión humana para casos con estas características específicas.\\n"
  else
    "Las políticas validan que la transacción cumple con los criterios de aprobación establecidos.\\n"

/-- Section 6's recommended action, keyed by decision. -/
def recommendedAction (decision : Option String) : String :=
  if decision = some "APPROVE" then
    "Procesar la transacción normalmente. El riesgo es aceptable dentro de los parámetros establecidos."
  else if decision = some "CHALLENGE" then
    "Solicitar validación adicional del cliente (OTP, biometría, etc.) antes de aprobar."
  else if decision = some "BLOCK" then
    "Bloquear la transacción y notificar al cliente sobre actividad sospechosa detectada."
  else
    "Derivar el caso a un analista especializado para revisión manual y decisión final."

/-- The six-section report of `run_explainability_agent_mock` (the
source writes the literal two characters `\n`, escaped the same way
here). -/
def mkAiSummary (s : GraphState) (confidence : ℚ) (agent_path : String) : String :=
  let sec1 :=
    "## 1) Decisión final y nivel de confianza\\n\\n"
    ++ "**Decisión:** " ++ decisionLabel s.decision ++ " (" ++ optStr s.decision ++ ")\\n\\n"
    ++ "**Riesgo de fraude:** " ++ toString (pyInt (confidence * 100)) ++ "% (" ++ fmt2 confidence ++ ")\\n\\n"
    ++ "**Resumen:** " ++ summaryReason s.signals s.decision ++ "\\n\\n"
  let sec2 :=
    "## 2) Señales clave que influyeron en la decisión\\n\\n"
    ++ (match s.signals with
        | [] => "- No se detectaron señales de riesgo significativas.\\n"
        | sgs => String.join (sgs.map (fun sg => "- " ++ sg ++ metricDetail s.metrics ++ "\\n")))
    ++ "\\n"
  let sec3 :=
    "## 3) Políticas internas aplicadas (RAG)\\n\\n"
    ++ (match s.citations_internal with
        | [] => "Sin políticas recuperadas.\\n"
        | cits =>
          String.join ((cits.enumFrom 1).map (fun ci =>
            "**Política " ++ toString ci.1 ++ ":** " ++ ci.2.policy_id ++ " versión "
              ++ ci.2.version ++ " (fragmento " ++ ci.2.chunk_id ++ ")\\n\\n"))
          ++ "**Aplicación:** " ++ applicationLine s.decision)
    ++ "\\n"
  let sec4 :=
    "## 4) Inteligencia de amenazas externas (búsqueda gobernada)\\n\\n"
    ++ "**Resultados:** " ++ toString s.citations_external.length ++ "\\n\\n"
    ++ (match s.citations_external with
        | [] => "No se registraron alertas externas relevantes en las fuentes permitidas.\\n"
        | cits => String.join (cits.map (fun c => "- " ++ c.url ++ " — " ++ c.summary ++ "\\n")))
    ++ "\\n"
  let sec5 :=
    "## 5) Resumen del debate entre agentes Pro-Fraude y Pro-Cliente\\n\\n"
    ++ (if s.debate.pro_fraud.reasoning ≠ "" then
          "**Pro-Fraude:** " ++ clip150 s.debate.pro_fraud.reasoning ++ "\\n\\n"
        else
          "**Pro-Fraude:** Las señales detectadas sugieren un nivel de riesgo que justifica precaución.\\n\\n")
    ++ (if s.debate.pro_customer.reasoning ≠ "" then
          "**Pro-Cliente:** " ++ clip150 s.debate.pro_customer.reasoning ++ "\\n\\n"
        else
          "**Pro-Cliente:** Algunos patrones del cliente coinciden con su comportamiento habitual.\\n\\n")
  let sec6 :=
    "## 6) Trazabilidad y siguientes pasos\\n\\n"
    ++ "**Ruta de agentes:** " ++ agent_path ++ "\\n\\n"
    ++ "**¿Se necesita intervención humana?:** " ++ (if s.hitl.required then "Sí" else "No")
    ++ (if s.hitl.required then " — " ++ s.hitl.reason else "")
    ++ "\\n\\n"
    ++ "**Acción recomendada:** " ++ recommendedAction s.decision ++ "\\n"
  sec1 ++ sec2 ++ sec3 ++ sec4 ++ sec5 ++ sec6

/-- `run_explainability_agent` with no LLM configured (the mock path):
renders the three explanation strings.  The mock evaluates
`confidence * 100` which raises a `TypeError` when `confidence` is
still `None`. -/
def run_explainability_agent (events : List AuditEvent) (s : GraphState) :
    Except String GraphState :=
  let agent_path := build_agent_path events s.transaction_id
  match s.confidence with
  | none => .error "TypeError: confidence is None"
  | some confidence =>
    let explanation_customer :=
      if s.decision = some "APPROVE" then
        "La transacción fue aprobada. No se detectaron señales relevantes."
      else if s.decision = some "CHALLENGE" then
        "La transacción requiere validación adicional por señales inusuales detectadas."
      else if s.decision = some "BLOCK" then
        "La transacción fue bloqueada por alta probabilidad de fraude según señales y evidencias."
      else
        "La transacción requiere revisión humana para una validación adicional."
    let audit_parts :=
      (if s.citations_internal = [] then [] else
        ["Se aplicó la política " ++ String.intercalate ", " (s.citations_internal.map (fun c => c.policy_id))])
      ++ (if s.citations_external = [] then [] else ["se detectó alerta externa"])
      ++ ["Ruta de agentes: " ++ agent_path]
    let explanation_audit := String.intercalate ". " audit_parts ++ "."
    .ok { s with
      explanation_customer := some explanation_customer
      explanation_audit := some explanation_audit
      ai_summary := some (mkAiSummary s confidence agent_path) }

/-! ## Orchestrator wrapper and pipeline (orchestration/graph.py) -/

/-- A stage as the wrapper sees it: the current state (and, for the
explainability stage, the audit events recorded so far) to either a new
state or the message of the exception it raised. -/
abbrev StageFn : Type := GraphState → List AuditEvent → Except String GraphState

/-- The forced outcome the wrapper installs when a stage raises. -/
def forceEscalate (agent_name : String) (s : GraphState) : GraphState :=
  { s with
      decision := some "ESCALATE_TO_HUMAN"
      hitl := { required := true, reason := "agent_error:" ++ agent_name } }

/-- `wrap_agent_node` / `wrap_agent_with_deps` (their error paths are
identical; on success the snapshot below carries the union of the fields
either wrapper records): reads the next sequence number, runs the stage,
appends one audit event, and on failure records an `<Agent>_error` event
and forces the escalation outcome. -/
def wrap_agent_node (run_id agent_name : String) (agent_fn : StageFn)
    (acc : GraphState × List AuditEvent) : GraphState × List AuditEvent :=
  let seq := get_next_seq acc.2 acc.1.transaction_id
  match agent_fn acc.1 acc.2 with
  | .ok new_state =>
    (new_state, acc.2 ++ [{
        transaction_id := acc.1.transaction_id
        run_id := run_id
        seq := seq
        agent := agent_name
        output_json := .ok new_state.signals new_state.metrics
          new_state.citations_internal new_state.citations_external
          new_state.decision new_state.confidence }])
  | .error e =>
    (forceEscalate agent_name acc.1, acc.2 ++ [{
        transaction_id := acc.1.transaction_id
        run_id := run_id
        seq := seq
        agent := agent_name ++ "_error"
        output_json := .err e }])

/-- The linear pipeline: each stage wrapped, run in order. -/
def pipelineWith (run_id : String) (stages : List (String × StageFn))
    (init : GraphState × List AuditEvent) : GraphState × List AuditEvent :=
  stages.foldl (fun acc st => wrap_agent_node run_id st.1 st.2 acc) init

/-- The external responses a run consumes: the vector index's answer
(`Except`, the store can raise) and the governed search's answer (the
search service never raises). -/
structure Deps where
  ragResults : Except String (List Document)
  searchResults : List CitationExternal

/-- The stage list of `build_fraud_detection_graph`, in graph order. -/
def source_stages (deps : Deps) : List (String × StageFn) :=
  [("TransactionContext", fun s _ => run_transaction_context_agent s),
   ("BehavioralPattern", fun s _ => .ok (run_behavioral_pattern_agent s)),
   ("PolicyRAG", fun s _ => deps.ragResults.map (fun docs => run_policy_rag_agent docs s)),
   ("ThreatIntel", fun s _ => .ok (run_threat_intel_agent deps.searchResults s)),
   ("EvidenceAggregation", fun s _ => .ok (run_evidence_aggregation_agent s)),
   ("DebateProFraud", fun s _ => .ok (run_debate_pro_fraud_agent s)),
   ("DebateProCustomer", fun s _ => .ok (run_debate_pro_customer_agent s)),
   ("Arbiter", fun s _ => .ok (run_arbiter_agent s)),
   ("Explainability", fun s log => run_explainability_agent log s)]

/-! ## HITL store (api/schemas.py HitlCase, storage/local_json.py) -/

/-- A HITL resolution record. -/
structure Resolution where
  decision : String
  notes : String
  deriving DecidableEq

/-- A HITL case. -/
structure HitlCase where
  case_id : String
  transaction_id : String
  status : String
  reason : String
  created_at : String
  resolved_at : Option String
  resolution : Option Resolution
  deriving DecidableEq

/-- `LocalJSONHitlRepository.get_case`: first case with the id. -/
def get_case (cases : List HitlCase) (case_id : String) : Option HitlCase :=
  cases.find? (fun c => decide (c.case_id = case_id))

/-- `LocalJSONHitlRepository.get_case_by_transaction`: first case with
the transaction id, whatever its status. -/
def get_case_by_transaction (cases : List HitlCase) (transaction_id : String) : Option HitlCase :=
  cases.find? (fun c => decide (c.transaction_id = transaction_id))

/-- `LocalJSONHitlRepository.create_case`: append. -/
def create_case (cases : List HitlCase) (case : HitlCase) : List HitlCase :=
  cases ++ [case]

/-- `LocalJSONHitlRepository.resolve_case`: marks the first case with
the id resolved (the loop `break`s after the first match). -/
def resolve_case (cases : List HitlCase) (case_id : String) (res : Resolution)
    (resolved_at : String) : List HitlCase :=
  match cases with
  | [] => []
  | c :: t =>
    if c.case_id = case_id then
      { c with status := "RESOLVED", resolution := some res, resolved_at := some resolved_at } :: t
    else c :: resolve_case t case_id res resolved_at

/-- The HITL gate node (`create_hitl_gate` in orchestration/graph.py):
when the state requires HITL and no case exists for the transaction,
creates one OPEN case with the fresh id, the state's reason and the
current time; `fresh_case_id` stands for the generated
`HITL-<uuid>` id and `now` for `datetime.now()`. -/
def create_hitl_gate (fresh_case_id now : String) (s : GraphState)
    (cases : List HitlCase) : List HitlCase :=
  if s.hitl.required then
    match get_case_by_transaction cases s.transaction_id with
    | some _ => cases
    | none => create_case cases
        { case_id := fresh_case_id
          transaction_id := s.transaction_id
          status := "OPEN"
          reason := s.hitl.reason
          created_at := now
          resolved_at := none
          resolution := none }
  else cases

/-- `run_fraud_detection`: initial state, the nine wrapped stages, then
the HITL gate.  Returns the final state, the audit log and the HITL
store. -/
def run_fraud_detection (deps : Deps) (run_id fresh_case_id now : String)
    (transaction_id : String) (consolidated : Consolidated)
    (log : List AuditEvent) (cases : List HitlCase) :
    GraphState × List AuditEvent × List HitlCase :=
  let p := pipelineWith run_id (source_stages deps)
    (create_initial_state transaction_id consolidated, log)
  (p.1, p.2, create_hitl_gate fresh_case_id now p.1 cases)

/-- The resolve endpoint (`resolve_hitl_case` in api/routes.py): 404
when the case is unknown, 400 when it is already resolved, otherwise
the repository marks it resolved.  (The endpoint's audit event and the
decision overwrite it then performs do not touch the case store.) -/
def resolve_hitl_case (cases : List HitlCase) (case_id : String) (res : Resolution)
    (now : String) : Except String (List HitlCase) :=
  match get_case cases case_id with
  | none => .error "404: Case not found"
  | some c =>
    if c.status = "RESOLVED" then .error "400: Case already resolved"
    else .ok (resolve_case cases case_id res now)

/-! ## Allowlist and governed search (web/allowlist.py, web/governed_search.py) -/

/-- A scheme character (RFC 3986, as `urllib.parse` accepts). -/
def isSchemeChar (c : Char) : Bool := c.isAlphanum || c = '+' || c = '-' || c = '.'

/-- Drop a leading `scheme:` when the prefix before the first colon is a
valid scheme (`urlparse`'s splitting rule). -/
def schemeSplit (cs : List Char) : List Char :=
  match cs.span (fun c => c ≠ ':') with
  | (pre, rest) =>
    match rest with
    | ':' :: t =>
      (match pre with
       | p :: _ => if p.isAlpha && pre.all isSchemeChar then t else cs
       | [] => cs)
    | _ => cs

/-- `urlparse(url).netloc`: present only after `//`, up to the next
`/`, `?` or `#`. -/
def netlocOf (url : String) : String :=
  match schemeSplit url.toList with
  | '/' :: '/' :: r => String.mk (r.takeWhile (fun c => c ≠ '/' && c ≠ '?' && c ≠ '#'))
  | _ => ""

/-- Python `domain.split(":")[0]` (strip a port suffix). -/
def stripPort (domain : String) : String :=
  String.mk (domain.toList.takeWhile (fun c => c ≠ ':'))

/-- `Allowlist.__init__`: domains lower-cased and stripped (set
membership is all the checker uses, so a list models the set). -/
def normalizeAllowlist (domains : List String) : List String :=
  domains.map (fun d => (strLower d).trim)

/-- `Allowlist.is_allowed`: the URL's host, lower-cased and stripped of
any port, equals an allowed domain or ends in `"." + allowed`. -/
def is_allowed (domains : List String) (url : String) : Bool :=
  let domain := stripPort (strLower (netlocOf url))
  decide (domain ∈ domains) || domains.any (fun allowed => strSuffix ("." ++ allowed) domain)

/-- A raw item of the HTTP provider's JSON response (`url` and `snippet`
read with `.get(…, "")`). -/
structure SearchItem where
  url : String
  snippet : String
  deriving DecidableEq

/-- `CustomHttpProvider.search`: no API URL configured or any exception
from the HTTP call yields `[]`; otherwise the allowed items, capped at
`max_results`. -/
def customHttpSearch (domains : List String) (api_url : Option String)
    (response : Except String (List SearchItem)) (max_results : ℕ) :
    List CitationExternal :=
  match api_url with
  | none => []
  | some _ =>
    match response with
    | .error _ => []
    | .ok items =>
      ((items.filter (fun it => is_allowed domains it.url)).map
        (fun it => { url := it.url, summary := it.snippet : CitationExternal })).take max_results

/-- `GovernedSearchService.search` over the HTTP provider: the
provider's results as plain records (`to_dict` is the identity here).
`max_results` defaults to 3 in the service's constructor. -/
def governed_search (domains : List String) (api_url : Option String)
    (response : Except String (List SearchItem)) (max_results : ℕ) :
    List CitationExternal :=
  customHttpSearch domains api_url response max_results

/-! ## Lemmas about rounding -/

theorem halfEven_eq_floor_or_succ (y : ℚ) :
    halfEven y = Int.floor y ∨ halfEven y = Int.floor y + 1 := by
  unfold halfEven
  split_ifs <;> simp

theorem round2_nonneg (x : ℚ) (hx : 0 ≤ x) : 0 ≤ round2 x := by
  have hfl : (0 : ℤ) ≤ ⌊x * 100⌋ := Int.floor_nonneg.mpr (by positivity)
  have : (0 : ℤ) ≤ halfEven (x * 100) := by
    rcases halfEven_eq_floor_or_succ (x * 100) with h | h <;> rw [h] <;> omega
  unfold round2
  have : (0 : ℚ) ≤ ((halfEven (x * 100) : ℤ) : ℚ) := by exact_mod_cast this
  positivity

theorem round2_le_one (x : ℚ) (hx : x ≤ 1) : round2 x ≤ 1 := by
  have hy : x * 100 ≤ 100 := by linarith
  have hfl : (⌊x * 100⌋ : ℚ) ≤ x * 100 := Int.floor_le _
  have hfl100 : ⌊x * 100⌋ ≤ 100 := by
    have : (⌊x * 100⌋ : ℚ) ≤ ((100 : ℤ) : ℚ) := by push_cast; linarith
    exact_mod_cast this
  have key : halfEven (x * 100) ≤ 100 := by
    unfold halfEven
    split_ifs with h1 h2 h3
    · have hlt : (⌊x * 100⌋ : ℚ) < x * 100 := by linarith
      have : ⌊x * 100⌋ < 100 := by
        have : (⌊x * 100⌋ : ℚ) < ((100 : ℤ) : ℚ) := by push_cast; linarith
        exact_mod_cast this
      omega
    · exact hfl100
    · exact hfl100
    · have hlt : (⌊x * 100⌋ : ℚ) < x * 100 := by linarith
      have : ⌊x * 100⌋ < 100 := by
        have : (⌊x * 100⌋ : ℚ) < ((100 : ℤ) : ℚ) := by push_cast; linarith
        exact_mod_cast this
      omega
  unfold round2
  rw [div_le_one (by norm_num : (0 : ℚ) < 100)]
  exact_mod_cast key

theorem round2_int_div (n : ℤ) : round2 ((n : ℚ) / 100) = (n : ℚ) / 100 := by
  unfold round2 halfEven
  have hy : (n : ℚ) / 100 * 100 = (n : ℚ) := by field_simp
  rw [hy, Int.floor_intCast]
  norm_num

/-! ## The Arbiter's confidence and rule cascade, as the spec states them -/

/-- The claim's confidence formula: `behavior_risk`, plus 0.20 exactly
when external citations exist, plus the pro-fraud delta, minus the
pro-customer delta, clamped to [0, 1]. -/
def claimCf (s : GraphState) : ℚ :=
  max 0 (min 1 (s.metrics.behaviorRiskD
    + (if s.citations_external ≠ [] then 0.20 else 0)
    + s.debate.pro_fraud.confidence_delta
    - s.debate.pro_customer.confidence_delta))

/-- The claim's ordered rule cascade, first match wins. -/
def claimDecision (s : GraphState) : String :=
  if s.metrics.policy_hint = some "ESCALATE_TO_HUMAN" ∧ s.metrics.newCountryD ∧ s.metrics.newDeviceD then
    "ESCALATE_TO_HUMAN"
  else if claimCf s ≥ 0.75 ∧ "Alerta externa" ∈ s.signals ∧ s.metrics.amountRatioD > 3 then
    "BLOCK"
  else if s.metrics.amountRatioD > 3 ∧ s.metrics.hourOutsideD then
    "CHALLENGE"
  else if claimCf s < 0.45 ∧ s.signals.length ≤ 1 then
    "APPROVE"
  else if claimCf s ≥ 0.60 then "CHALLENGE" else "ESCALATE_TO_HUMAN"

/-- C3: the Arbiter computes cf as the claim's clamped formula, selects
the decision by the claim's rule cascade in that exact order (an earlier
matching rule preempts all later ones, which the nested if-else
expresses), and stores the confidence as cf rounded to 2 decimals. -/
theorem arbiter_matches_spec_rules (s : GraphState) :
    (run_arbiter_agent s).decision = some (claimDecision s) ∧
    (run_arbiter_agent s).confidence = some (round2 (claimCf s)) := by
  have clamp_congr : ∀ A B : ℚ, A = B → max 0 (min 1 A) = max 0 (min 1 B) := by
    intro A B h; rw [h]
  have hcf : claimCf s
      = max 0 (min 1 ((if s.citations_external = [] then s.metrics.behaviorRiskD
          else s.metrics.behaviorRiskD + 0.20)
          + s.debate.pro_fraud.confidence_delta - s.debate.pro_customer.confidence_delta)) := by
    unfold claimCf
    apply clamp_congr
    rcases hE : s.citations_external with _ | ⟨c, cs⟩ <;> simp
  simp only [run_arbiter_agent, claimDecision]
  rw [← hcf]
  exact ⟨rfl, rfl⟩

/-- C10: the Arbiter's decision, confidence and HITL flag depend on the
debate positions only through their confidence deltas; the recommended
decisions and reasoning texts never influence the outcome. -/
theorem arbiter_ignores_debate_texts (s t : GraphState)
    (hm : s.metrics = t.metrics)
    (hs : s.signals = t.signals)
    (hc : s.citations_external = t.citations_external)
    (hf : s.debate.pro_fraud.confidence_delta = t.debate.pro_fraud.confidence_delta)
    (hp : s.debate.pro_customer.confidence_delta = t.debate.pro_customer.confidence_delta) :
    (run_arbiter_agent s).decision = (run_arbiter_agent t).decision ∧
    (run_arbiter_agent s).confidence = (run_arbiter_agent t).confidence ∧
    (run_arbiter_agent s).hitl = (run_arbiter_agent t).hitl := by
  simp only [run_arbiter_agent, hm, hs, hc, hf, hp]
  exact ⟨trivial, trivial, trivial⟩

/-- Witness for C10: two states identical except for the debate texts
(equal deltas) — the Arbiter's outputs coincide. -/
theorem arbiter_ignores_debate_texts_witness :
    (run_arbiter_agent { (create_initial_state "T-1" {}) with
        debate := { pro_fraud := { recommended_decision := "BLOCK", confidence_delta := 0, reasoning := "x" }
                    pro_customer := { recommended_decision := "APPROVE", confidence_delta := 0, reasoning := "y" } } }).decision
    = (run_arbiter_agent { (create_initial_state "T-1" {}) with
        debate := { pro_fraud := { recommended_decision := "CHALLENGE", confidence_delta := 0, reasoning := "z" }
                    pro_customer := { recommended_decision := "CHALLENGE", confidence_delta := 0, reasoning := "w" } } }).decision := by
  exact (arbiter_ignores_debate_texts _ _ rfl rfl rfl rfl rfl).1

/-! ## Behaviour stage: claim-side formulation -/

/-- The claim's mutually-exclusive amount band. -/
def bandContribution (r : ℚ) : ℚ :=
  if r > 5 then 0.35
  else if 3 < r ∧ r ≤ 5 then 0.25
  else if 2 < r ∧ r ≤ 3 then 0.15
  else 0

/-- The claim's behaviour-risk formula: one amount-band contribution plus
the three boolean contributions, capped at 1 and rounded to 2 decimals. -/
def claimBehaviorRisk (r : ℚ) (hourOut devNew ctryNew : Bool) : ℚ :=
  round2 (min 1 (bandContribution r
    + (if hourOut then 0.15 else 0)
    + (if devNew then 0.20 else 0)
    + (if ctryNew then 0.25 else 0)))

theorem band_eq (r : ℚ) :
    (if r > 5 then (0.35 : ℚ) else if r > 3 then 0.25 else if r > 2 then 0.15 else 0)
      = bandContribution r := by
  unfold bandContribution
  by_cases h5 : r > 5
  · rw [if_pos h5, if_pos h5]
  · rw [if_neg h5, if_neg h5]
    by_cases h3 : r > 3
    · rw [if_pos h3, if_pos (show 3 < r ∧ r ≤ 5 from ⟨h3, by linarith⟩)]
    · rw [if_neg h3, if_neg (show ¬(3 < r ∧ r ≤ 5) from fun h => h3 h.1)]
      by_cases h2 : r > 2
      · rw [if_pos h2, if_pos (show 2 < r ∧ r ≤ 3 from ⟨h2, by linarith⟩)]
      · rw [if_neg h2, if_neg (show ¬(2 < r ∧ r ≤ 3) from fun h => h2 h.1)]

theorem claimBehaviorRisk_bounds (r : ℚ) (hourOut devNew ctryNew : Bool) :
    0 ≤ claimBehaviorRisk r hourOut devNew ctryNew ∧
    claimBehaviorRisk r hourOut devNew ctryNew ≤ 1 := by
  unfold claimBehaviorRisk
  have hband : 0 ≤ bandContribution r := by
    unfold bandContribution; split_ifs <;> norm_num
  have h1 : 0 ≤ (if hourOut then (0.15 : ℚ) else 0) := by split_ifs <;> norm_num
  have h2 : 0 ≤ (if devNew then (0.20 : ℚ) else 0) := by split_ifs <;> norm_num
  have h3 : 0 ≤ (if ctryNew then (0.25 : ℚ) else 0) := by split_ifs <;> norm_num
  constructor
  · exact round2_nonneg _ (le_min (by norm_num) (by linarith))
  · exact round2_le_one _ (min_le_left 1 _)

/-- C7: the Behaviour stage stores exactly the claim's formula (one
mutually-exclusive amount band plus the three boolean contributions,
capped at 1, rounded to 2 decimals); the stored value lies in [0, 1];
and it depends only on (amount_ratio, hour_outside, new_device,
new_country), so re-invocation on equal inputs yields the same value. -/
theorem behavior_risk_matches_spec (s : GraphState) :
    (run_behavioral_pattern_agent s).metrics.behavior_risk
      = some (claimBehaviorRisk s.metrics.amountRatioD s.metrics.hourOutsideD
          s.metrics.newDeviceD s.metrics.newCountryD)
    ∧ (∀ x : ℚ, (run_behavioral_pattern_agent s).metrics.behavior_risk = some x →
        0 ≤ x ∧ x ≤ 1)
    ∧ (∀ t : GraphState,
        s.metrics.amountRatioD = t.metrics.amountRatioD →
        s.metrics.hourOutsideD = t.metrics.hourOutsideD →
        s.metrics.newDeviceD = t.metrics.newDeviceD →
        s.metrics.newCountryD = t.metrics.newCountryD →
        (run_behavioral_pattern_agent s).metrics.behavior_risk
          = (run_behavioral_pattern_agent t).metrics.behavior_risk) := by
  have hmain : (run_behavioral_pattern_agent s).metrics.behavior_risk
      = some (claimBehaviorRisk s.metrics.amountRatioD s.metrics.hourOutsideD
          s.metrics.newDeviceD s.metrics.newCountryD) := by
    simp only [run_behavioral_pattern_agent, claimBehaviorRisk]
    rw [band_eq]
  refine ⟨hmain, ?_, ?_⟩
  · intro x hx
    rw [hmain, Option.some_inj] at hx
    subst hx
    exact claimBehaviorRisk_bounds _ _ _ _
  · intro t h1 h2 h3 h4
    simp only [run_behavioral_pattern_agent, h1, h2, h3, h4]

/-! ## The Arbiter's HITL reason strings (C4)

The arbiter sets `hitl.reason` to a long Spanish sentence; the
repository's own tests (tests/test_arbiter.py) assert the short tags
`"policy_or_low_confidence"` / `"borderline_confidence"` instead, so the
code contradicts its tests on every HITL-triggering input.  The state
below is the one `test_escalate_policy_hint_new_country_device` builds. -/

/-- The Arbiter input of `test_escalate_policy_hint_new_country_device`:
an ESCALATE policy hint with a new country and a new device. -/
def arbiterTagState : GraphState :=
  { create_initial_state "T-TEST" {} with
      signals := ["País no habitual", "Dispositivo nuevo"]
      metrics :=
        { amount_ratio := some 2
          hour_outside := some false
          new_country := some true
          new_device := some true
          behavior_risk := some 0.45
          policy_hint := some "ESCALATE_TO_HUMAN" }
      debate :=
        { pro_fraud := { recommended_decision := "CHALLENGE", confidence_delta := 0, reasoning := "" }
          pro_customer := { recommended_decision := "APPROVE", confidence_delta := 0, reasoning := "" } } }

/-- C4: on the test suite's escalation input the decision is
ESCALATE_TO_HUMAN and HITL is required, but the recorded reason is the
long Spanish sentence, not the short tag `"policy_or_low_confidence"`
the claim (and tests/test_arbiter.py:112) state. -/
theorem arbiter_hitl_reason_is_long_string :
    (run_arbiter_agent arbiterTagState).decision = some "ESCALATE_TO_HUMAN"
    ∧ (run_arbiter_agent arbiterTagState).hitl.required = true
    ∧ (run_arbiter_agent arbiterTagState).hitl.reason
        = "Política o baja confianza requiere revisión humana"
    ∧ (run_arbiter_agent arbiterTagState).hitl.reason ≠ "policy_or_low_confidence" := by
  refine ⟨?_, ?_, ?_, ?_⟩ <;> decide

/-! ## Policy-hint derivation (C2) -/

theorem hintStep_esc {c : String} (he : escMatch c = true) (h : Option String) :
    hintStep h c = some "ESCALATE_TO_HUMAN" := by
  unfold hintStep
  rw [if_pos he]
  by_cases hh : h = some "ESCALATE_TO_HUMAN"
  · subst hh
    rw [if_neg (by simp)]
  · rw [if_pos (Or.inr hh)]

theorem hintStep_fix {c : String} (he : escMatch c = false) (x : String) :
    hintStep (some x) c = some x := by
  unfold hintStep
  rw [if_neg (by simp [he])]
  split_ifs <;> simp_all

theorem hintStep_none_eval {c : String} (he : escMatch c = false) :
    hintStep none c
      = if blkMatch c then some "BLOCK"
        else if chalMatch c then some "CHALLENGE" else none := by
  unfold hintStep
  rw [if_neg (by simp [he])]
  split_ifs <;> simp_all

theorem hintStep_esc_iff_of_not {c : String} (he : escMatch c = false) (h : Option String) :
    (hintStep h c = some "ESCALATE_TO_HUMAN") ↔ h = some "ESCALATE_TO_HUMAN" := by
  cases h with
  | none =>
    rw [hintStep_none_eval he]
    split_ifs <;> decide
  | some x =>
    rw [hintStep_fix he x]

theorem foldl_hintStep_esc_iff (docs : List Document) (h : Option String) :
    (docs.foldl (fun acc d => hintStep acc d.content) h = some "ESCALATE_TO_HUMAN")
      ↔ (h = some "ESCALATE_TO_HUMAN" ∨ ∃ d ∈ docs, escMatch d.content = true) := by
  induction docs generalizing h with
  | nil => simp
  | cons d ds ih =>
    simp only [List.foldl_cons]
    rw [ih]
    by_cases he : escMatch d.content = true
    · have h1 : hintStep h d.content = some "ESCALATE_TO_HUMAN" := hintStep_esc he h
      constructor
      · intro _
        exact Or.inr ⟨d, List.mem_cons_self d ds, he⟩
      · intro _
        exact Or.inl h1
    · have he' : escMatch d.content = false := by simpa using he
      rw [hintStep_esc_iff_of_not he']
      constructor
      · rintro (hh | ⟨d', hd', hesc⟩)
        · exact Or.inl hh
        · exact Or.inr ⟨d', List.mem_cons_of_mem _ hd', hesc⟩
      · rintro (hh | ⟨d', hd', hesc⟩)
        · exact Or.inl hh
        · rcases List.mem_cons.mp hd' with rfl | hd''
          · exact absurd hesc (by simp [he'])
          · exact Or.inr ⟨d', hd'', hesc⟩

theorem foldl_hintStep_fix (docs : List Document) (x : String)
    (hne : ∀ d ∈ docs, escMatch d.content = false) :
    docs.foldl (fun acc d => hintStep acc d.content) (some x) = some x := by
  induction docs with
  | nil => rfl
  | cons d ds ih =>
    simp only [List.foldl_cons]
    rw [hintStep_fix (hne d (List.mem_cons_self d ds)) x]
    exact ih (fun d' hd' => hne d' (List.mem_cons_of_mem _ hd'))

theorem foldl_hintStep_first (docs : List Document)
    (hne : ∀ d ∈ docs, escMatch d.content = false) :
    docs.foldl (fun acc d => hintStep acc d.content) none
      = (docs.find? (fun d => blkMatch d.content || chalMatch d.content)).map
          (fun d => if blkMatch d.content then "BLOCK" else "CHALLENGE") := by
  induction docs with
  | nil => rfl
  | cons d ds ih =>
    have hd : escMatch d.content = false := hne d (List.mem_cons_self d ds)
    have hrest : ∀ d' ∈ ds, escMatch d'.content = false :=
      fun d' h' => hne d' (List.mem_cons_of_mem _ h')
    simp only [List.foldl_cons]
    rw [hintStep_none_eval hd]
    by_cases hb : blkMatch d.content = true
    · rw [if_pos hb, foldl_hintStep_fix ds _ hrest,
        List.find?_cons_of_pos _ (by simp [hb])]
      simp [hb]
    · have hb' : blkMatch d.content = false := by simpa using hb
      rw [if_neg (by simp [hb'])]
      by_cases hc : chalMatch d.content = true
      · rw [if_pos hc, foldl_hintStep_fix ds _ hrest,
          List.find?_cons_of_pos _ (by simp [hc])]
        simp [hb']
      · have hc' : chalMatch d.content = false := by simpa using hc
        rw [if_neg (by simp [hc']),
          List.find?_cons_of_neg _ (by simp [hb', hc'])]
        exact ih hrest

/-- The hint the claim describes: severity priority over the whole
retrieved set, independent of retrieval order. -/
def specPolicyHint (docs : List Document) : Option String :=
  if ∃ d ∈ docs, escMatch d.content = true then some "ESCALATE_TO_HUMAN"
  else if ∃ d ∈ docs, blkMatch d.content = true then some "BLOCK"
  else if ∃ d ∈ docs, chalMatch d.content = true then some "CHALLENGE"
  else none

/-- A rule document whose text triggers only the CHALLENGE guard. -/
def docChallenge : Document :=
  { content := "Si monto alto → CHALLENGE", metadata := {} }

/-- A rule document whose text triggers only the BLOCK guard. -/
def docBlock : Document :=
  { content := "Si monto alto → BLOCK", metadata := {} }

/-- C2 counterexample: with a CHALLENGE rule retrieved before a BLOCK
rule the stage derives CHALLENGE, while the claim demands BLOCK; the
permuted retrieval yields BLOCK, so the derived hint is not
order-independent either. -/
theorem policy_hint_counterexample :
    (run_policy_rag_agent [docChallenge, docBlock]
        (create_initial_state "T-1" {})).metrics.policy_hint = some "CHALLENGE"
    ∧ (run_policy_rag_agent [docBlock, docChallenge]
        (create_initial_state "T-1" {})).metrics.policy_hint = some "BLOCK"
    ∧ specPolicyHint [docChallenge, docBlock] = some "BLOCK" := by
  refine ⟨?_, ?_, ?_⟩ <;> decide

/-- C2 (amended): the derived hint is ESCALATE_TO_HUMAN iff some
retrieved rule matches the escalate guard (this much is independent of
retrieval order); when no rule matches it, the hint is that of the
*first* retrieved rule matching the BLOCK-or-CHALLENGE guards (BLOCK if
that rule matches the block guard, else CHALLENGE), and unset when no
rule matches — a later BLOCK rule does not override an earlier
CHALLENGE one, so between BLOCK and CHALLENGE retrieval order decides. -/
theorem policy_hint_amended (docs : List Document) (s : GraphState) :
    ((run_policy_rag_agent docs s).metrics.policy_hint = some "ESCALATE_TO_HUMAN"
       ↔ ∃ d ∈ docs, escMatch d.content = true)
    ∧ ((∀ d ∈ docs, escMatch d.content = false) →
        (run_policy_rag_agent docs s).metrics.policy_hint
          = (docs.find? (fun d => blkMatch d.content || chalMatch d.content)).map
              (fun d => if blkMatch d.content then "BLOCK" else "CHALLENGE")) := by
  have hproj : (run_policy_rag_agent docs s).metrics.policy_hint
      = docs.foldl (fun acc d => hintStep acc d.content) none := by
    simp [run_policy_rag_agent]
  constructor
  · rw [hproj, foldl_hintStep_esc_iff]
    simp
  · intro hne
    rw [hproj]
    exact foldl_hintStep_first docs hne


/-! ## The HITL gate (C5) -/

/-- Number of OPEN cases a store holds for a transaction. -/
def openCaseCount (cases : List HitlCase) (tx : String) : ℕ :=
  (cases.filter (fun c => decide (c.transaction_id = tx ∧ c.status = "OPEN"))).length

/-- The case the gate creates. -/
def gateCase (fresh_case_id now : String) (s : GraphState) : HitlCase where
  case_id := fresh_case_id
  transaction_id := s.transaction_id
  status := "OPEN"
  reason := s.hitl.reason
  created_at := now
  resolved_at := none
  resolution := none

theorem create_hitl_gate_of_found (fresh_case_id now : String) (s : GraphState)
    (cases : List HitlCase) (c : HitlCase)
    (h : get_case_by_transaction cases s.transaction_id = some c) :
    create_hitl_gate fresh_case_id now s cases = cases := by
  unfold create_hitl_gate
  cases hreq : s.hitl.required
  · simp
  · simp [h]

theorem create_hitl_gate_creates (fresh_case_id now : String) (s : GraphState)
    (cases : List HitlCase)
    (hreq : s.hitl.required = true)
    (hnone : get_case_by_transaction cases s.transaction_id = none) :
    create_hitl_gate fresh_case_id now s cases
      = cases ++ [gateCase fresh_case_id now s] := by
  simp [create_hitl_gate, hreq, hnone, create_case, gateCase]

/-- C5: the gate creates a case only when no case (in particular no OPEN
case) exists for the transaction; when it does create one, the new case
is OPEN with the fresh id, the state's HITL reason and the current
time; re-running the gate never creates a second case (idempotence
under retry); and the at-most-one-OPEN-case-per-transaction invariant
is preserved. -/
theorem hitl_gate_correct (fresh_case_id now : String) (s : GraphState)
    (cases : List HitlCase) :
    ((∃ c ∈ cases, c.transaction_id = s.transaction_id ∧ c.status = "OPEN") →
        create_hitl_gate fresh_case_id now s cases = cases)
    ∧ (s.hitl.required = true →
        get_case_by_transaction cases s.transaction_id = none →
        create_hitl_gate fresh_case_id now s cases
          = cases ++ [gateCase fresh_case_id now s])
    ∧ (∀ fid2 now2,
        create_hitl_gate fid2 now2 s (create_hitl_gate fresh_case_id now s cases)
          = create_hitl_gate fresh_case_id now s cases)
    ∧ (∀ tx, openCaseCount cases tx ≤ 1 →
        openCaseCount (create_hitl_gate fresh_case_id now s cases) tx ≤ 1) := by
  refine ⟨?_, ?_, ?_, ?_⟩
  · rintro ⟨c, hc, htx, _⟩
    have hsome : (get_case_by_transaction cases s.transaction_id).isSome := by
      unfold get_case_by_transaction
      rw [List.find?_isSome]
      exact ⟨c, hc, by simp [htx]⟩
    obtain ⟨c', hc'⟩ := Option.isSome_iff_exists.mp hsome
    exact create_hitl_gate_of_found fresh_case_id now s cases c' hc'
  · exact create_hitl_gate_creates fresh_case_id now s cases
  · intro fid2 now2
    cases hreq : s.hitl.required
    · simp [create_hitl_gate, hreq]
    · cases hfind : get_case_by_transaction cases s.transaction_id with
      | some c =>
        rw [create_hitl_gate_of_found fresh_case_id now s cases c hfind]
        exact create_hitl_gate_of_found fid2 now2 s cases c hfind
      | none =>
        rw [create_hitl_gate_creates fresh_case_id now s cases hreq hfind]
        apply create_hitl_gate_of_found fid2 now2 s _ (gateCase fresh_case_id now s)
        unfold get_case_by_transaction at hfind ⊢
        rw [List.find?_append, hfind]
        simp [gateCase]
  · intro tx hcount
    cases hreq : s.hitl.required
    · simpa [create_hitl_gate, hreq] using hcount
    · cases hfind : get_case_by_transaction cases s.transaction_id with
      | some c =>
        rw [create_hitl_gate_of_found fresh_case_id now s cases c hfind]
        exact hcount
      | none =>
        rw [create_hitl_gate_creates fresh_case_id now s cases hreq hfind]
        have hall : ∀ c ∈ cases, c.transaction_id ≠ s.transaction_id := by
          intro c hc
          have := List.find?_eq_none.mp hfind c hc
          simpa using this
        have hsplitc : openCaseCount (cases ++ [gateCase fresh_case_id now s]) tx
            = openCaseCount cases tx + openCaseCount [gateCase fresh_case_id now s] tx := by
          unfold openCaseCount
          rw [List.filter_append, List.length_append]
        rw [hsplitc]
        by_cases htx : tx = s.transaction_id
        · have hempty : openCaseCount cases tx = 0 := by
            unfold openCaseCount
            have hnil : cases.filter
                (fun c => decide (c.transaction_id = tx ∧ c.status = "OPEN")) = [] := by
              apply List.filter_eq_nil_iff.mpr
              intro c hc
              simp only [decide_eq_true_eq, not_and]
              intro h
              exact absurd (h.trans htx) (hall c hc)
            rw [hnil]
            rfl
          have hone : openCaseCount [gateCase fresh_case_id now s] tx ≤ 1 := by
            unfold openCaseCount
            exact le_trans (List.length_filter_le _ _) (by simp)
          omega
        · have hzero : openCaseCount [gateCase fresh_case_id now s] tx = 0 := by
            have hne : (gateCase fresh_case_id now s).transaction_id ≠ tx := by
              simp only [gateCase]
              exact fun h => htx h.symm
            simp [openCaseCount, hne]
          omega

/-- Witness for C5: a required HITL state and an empty store — the gate
creates exactly the one OPEN case, and re-running it changes nothing. -/
theorem hitl_gate_correct_witness :
    create_hitl_gate "HITL-1" "t0"
        { create_initial_state "T-9" {} with hitl := { required := true, reason := "r" } } []
      = [] ++ [gateCase "HITL-1" "t0"
          { create_initial_state "T-9" {} with hitl := { required := true, reason := "r" } }]
    ∧ create_hitl_gate "HITL-2" "t1"
        { create_initial_state "T-9" {} with hitl := { required := true, reason := "r" } }
        (create_hitl_gate "HITL-1" "t0"
          { create_initial_state "T-9" {} with hitl := { required := true, reason := "r" } } [])
      = create_hitl_gate "HITL-1" "t0"
          { create_initial_state "T-9" {} with hitl := { required := true, reason := "r" } } [] := by
  constructor
  · exact (hitl_gate_correct "HITL-1" "t0" _ []).2.1 rfl (by decide)
  · exact (hitl_gate_correct "HITL-1" "t0" _ []).2.2.1 "HITL-2" "t1"

/-! ## Resolving a HITL case (C6) -/

/-- A case as `resolve_case` rewrites it: RESOLVED with the resolution
and resolution time. -/
def resolvedCase (c : HitlCase) (res : Resolution) (now : String) : HitlCase :=
  { c with status := "RESOLVED", resolution := some res, resolved_at := some now }

theorem resolve_case_append (pre post : List HitlCase) (c : HitlCase)
    (cid : String) (res : Resolution) (rat : String)
    (hpre : ∀ a ∈ pre, a.case_id ≠ cid) (hc : c.case_id = cid) :
    resolve_case (pre ++ c :: post) cid res rat
      = pre ++ resolvedCase c res rat :: post := by
  induction pre with
  | nil => simp [resolve_case, hc, resolvedCase]
  | cons a t ih =>
    simp only [List.cons_append, resolve_case, List.append_eq]
    rw [if_neg (hpre a (List.mem_cons_self a _))]
    rw [ih (fun a' h' => hpre a' (List.mem_cons_of_mem _ h'))]

/-- C6: resolving an OPEN case succeeds, persisting status RESOLVED
with the resolution record and the resolution time (both now set),
leaving every other case untouched; and every further resolve call for
the same case id is rejected with the already-resolved error, producing
no new store — so the resolved fields are immutable through this
endpoint. -/
theorem hitl_resolve_correct (cases : List HitlCase) (cid : String)
    (res : Resolution) (now : String) (c : HitlCase)
    (hfind : get_case cases cid = some c) (hopen : c.status = "OPEN") :
    ∃ pre post,
      cases = pre ++ c :: post
      ∧ resolve_hitl_case cases cid res now
          = .ok (pre ++ resolvedCase c res now :: post)
      ∧ get_case (pre ++ resolvedCase c res now :: post) cid
          = some (resolvedCase c res now)
      ∧ (∀ res2 now2,
          resolve_hitl_case (pre ++ resolvedCase c res now :: post) cid res2 now2
            = .error "400: Case already resolved") := by
  obtain ⟨hpc, pre, post, hsplit, hpre⟩ := List.find?_eq_some.mp hfind
  have hcid : c.case_id = cid := by simpa using hpc
  have hpre' : ∀ a ∈ pre, a.case_id ≠ cid := by
    intro a ha
    have := hpre a ha
    simpa using this
  have hprenone : List.find? (fun a => decide (a.case_id = cid)) pre = none :=
    List.find?_eq_none.mpr (by intro a ha; simpa using hpre' a ha)
  have hfind2 : get_case (pre ++ resolvedCase c res now :: post) cid
      = some (resolvedCase c res now) := by
    unfold get_case
    rw [List.find?_append, hprenone]
    simp [hcid, resolvedCase]
  refine ⟨pre, post, hsplit, ?_, hfind2, ?_⟩
  · unfold resolve_hitl_case
    rw [hfind]
    simp only
    rw [if_neg (by rw [hopen]; decide)]
    rw [hsplit, resolve_case_append pre post c cid res now hpre' hcid]
  · intro res2 now2
    unfold resolve_hitl_case
    rw [hfind2]
    simp [resolvedCase]

/-- The OPEN case used by the C6 witness. -/
def caseOpen0 : HitlCase where
  case_id := "HITL-1"
  transaction_id := "T-9"
  status := "OPEN"
  reason := "r"
  created_at := "t0"
  resolved_at := none
  resolution := none

/-- The resolution used by the C6 witness. -/
def res0 : Resolution := { decision := "APPROVE", notes := "ok" }

/-- Witness for C6: a one-case store — resolving the OPEN case succeeds
and every second resolve call is rejected. -/
theorem hitl_resolve_correct_witness :
    ∃ pre post,
      [caseOpen0] = pre ++ caseOpen0 :: post
      ∧ resolve_hitl_case [caseOpen0] "HITL-1" res0 "t1"
          = .ok (pre ++ resolvedCase caseOpen0 res0 "t1" :: post)
      ∧ get_case (pre ++ resolvedCase caseOpen0 res0 "t1" :: post) "HITL-1"
          = some (resolvedCase caseOpen0 res0 "t1")
      ∧ (∀ res2 now2,
          resolve_hitl_case (pre ++ resolvedCase caseOpen0 res0 "t1" :: post) "HITL-1" res2 now2
            = .error "400: Case already resolved") :=
  hitl_resolve_correct [caseOpen0] "HITL-1" res0 "t1" caseOpen0 (by decide) (by decide)

/-! ## Governed search (C9) -/

/-- C9: the governed search returns at most `max_results` results
(`max_results` is the service's constructor default 3 unless
configured); every returned result's URL passes the allowlist check,
which holds exactly when the URL's host — lower-cased and stripped of
any port suffix — equals an allowlisted (normalised) domain or is a
sub-domain of one; and a provider error yields the empty result list
instead of an exception reaching the calling stage. -/
theorem governed_search_correct (domainsRaw : List String) (api_url : Option String)
    (response : Except String (List SearchItem)) (max_results : ℕ) :
    (governed_search (normalizeAllowlist domainsRaw) api_url response max_results).length
        ≤ max_results
    ∧ (∀ r ∈ governed_search (normalizeAllowlist domainsRaw) api_url response max_results,
        is_allowed (normalizeAllowlist domainsRaw) r.url = true)
    ∧ (∀ url, is_allowed (normalizeAllowlist domainsRaw) url = true ↔
        (stripPort (strLower (netlocOf url)) ∈ normalizeAllowlist domainsRaw
          ∨ ∃ d ∈ normalizeAllowlist domainsRaw,
              strSuffix ("." ++ d) (stripPort (strLower (netlocOf url))) = true))
    ∧ (∀ e, response = .error e →
        governed_search (normalizeAllowlist domainsRaw) api_url response max_results = []) := by
  refine ⟨?_, ?_, ?_, ?_⟩
  · cases api_url with
    | none => simp [governed_search, customHttpSearch]
    | some u =>
      cases response with
      | error e => simp [governed_search, customHttpSearch]
      | ok items =>
        simp [governed_search, customHttpSearch]
  · intro r hr
    cases api_url with
    | none => simp [governed_search, customHttpSearch] at hr
    | some u =>
      cases response with
      | error e => simp [governed_search, customHttpSearch] at hr
      | ok items =>
        simp only [governed_search, customHttpSearch] at hr
        have hr' := List.mem_of_mem_take hr
        obtain ⟨it, hit, rfl⟩ := List.mem_map.mp hr'
        have hpred : is_allowed (normalizeAllowlist domainsRaw) it.url = true := by
          simpa using List.of_mem_filter hit
        exact hpred
  · intro url
    simp [is_allowed, List.any_eq_true]
  · intro e he
    subst he
    cases api_url with
    | none => rfl
    | some u => rfl

/-! ## The Context stage (C8) -/

/-- C8: when the consolidated view has all its fields (and a
non-negative usual average, as ingested profiles do), the Context stage
succeeds; it stores `amount_ratio` as `amount / usual_amount_avg`
rounded to 2 decimals with 999.0 when the average is zero; it stores
the timestamp's hour-of-day (the parsed hour, or 12 when parsing
fails); and it appends exactly the four conditional signals, in this
order, gated by the unrounded ratio, the hour range, and the country
and device membership tests. -/
theorem context_matches_spec (s : GraphState)
    (amount avg : ℚ) (country device ts : String) (hrs hre : ℤ) (ucs uds : List String)
    (h1 : s.consolidated.amount = some amount)
    (h2 : s.consolidated.usual_amount_avg = some avg)
    (h3 : s.consolidated.country = some country)
    (h4 : s.consolidated.device_id = some device)
    (h5 : s.consolidated.timestamp = some ts)
    (h6 : s.consolidated.usual_hours_start = some hrs)
    (h7 : s.consolidated.usual_hours_end = some hre)
    (h8 : s.consolidated.usual_countries = some ucs)
    (h9 : s.consolidated.usual_devices = some uds)
    (hnn : 0 ≤ avg) :
    ∃ out, run_transaction_context_agent s = .ok out
      ∧ out.metrics.amount_ratio
          = some (round2 (if avg = 0 then 999 else amount / avg))
      ∧ out.metrics.hour = some (extract_hour ts)
      ∧ (∀ h : ℕ, parseIsoHour (replaceZ ts).toList = some h → extract_hour ts = h)
      ∧ (parseIsoHour (replaceZ ts).toList = none → extract_hour ts = 12)
      ∧ out.signals = s.signals
          ++ (if (if avg = 0 then (999 : ℚ) else amount / avg) > 3
              then ["Monto fuera de rango"] else [])
          ++ (if extract_hour ts < hrs ∨ extract_hour ts > hre
              then ["Horario no habitual"] else [])
          ++ (if country ∉ ucs then ["País no habitual"] else [])
          ++ (if device ∉ uds then ["Dispositivo nuevo"] else []) := by
  have hratio : (if avg > 0 then amount / avg else 999)
      = (if avg = 0 then (999 : ℚ) else amount / avg) := by
    by_cases hz : avg = 0
    · subst hz; simp
    · have hpos : avg > 0 := lt_of_le_of_ne hnn (Ne.symm hz)
      rw [if_pos hpos, if_neg hz]
  simp only [run_transaction_context_agent, h1, h2, h3, h4, h5, h6, h7, h8, h9, req,
    bind, Except.bind]
  refine ⟨_, rfl, ?_, ?_, ?_, ?_, ?_⟩
  · simp [hratio]
  · simp
  · intro h hp
    unfold extract_hour
    rw [hp]
  · intro hp
    unfold extract_hour
    rw [hp]
  · simp only [hratio, decide_eq_true_eq]

/-- The embedded hour extraction agrees with the repository's own test
cases for `extract_hour` (tests/test_context_agent.py). -/
theorem extract_hour_test_cases :
    extract_hour "2025-12-17T10:15:00" = 10
    ∧ extract_hour "2025-12-17T00:30:00" = 0
    ∧ extract_hour "2025-12-17T23:45:00" = 23
    ∧ extract_hour "2025-12-17T10:15:00Z" = 10
    ∧ extract_hour "not a timestamp" = 12 := by
  refine ⟨?_, ?_, ?_, ?_, ?_⟩ <;> decide

/-- The consolidated view used by the C8 witness (the test suite's
outside-hours transaction: four-fold amount at 03:15). -/
def ctxConsolidated : Consolidated where
  amount := some 2000
  usual_amount_avg := some 500
  country := some "PE"
  device_id := some "D-01"
  timestamp := some "2025-12-17T03:15:00"
  usual_hours_start := some 8
  usual_hours_end := some 20
  usual_countries := some ["PE"]
  usual_devices := some ["D-01"]
  merchant_id := some "M-001"

/-- Witness for C8: the context stage succeeds on the complete test
consolidated view. -/
theorem context_matches_spec_witness :
    ∃ out, run_transaction_context_agent
        (create_initial_state "T-TEST" ctxConsolidated) = .ok out := by
  obtain ⟨out, hout, -⟩ :=
    context_matches_spec (create_initial_state "T-TEST" ctxConsolidated)
      2000 500 "PE" "D-01" "2025-12-17T03:15:00" 8 20 ["PE"] ["D-01"]
      rfl rfl rfl rfl rfl rfl rfl rfl rfl (by norm_num)
  exact ⟨out, hout⟩

/-! ## Orchestrator error handling (C1) -/

theorem round2_zero : round2 0 = 0 := by
  have h := round2_int_div 0
  simpa using h

theorem pipelineWith_append (run_id : String) (l1 l2 : List (String × StageFn))
    (p : GraphState × List AuditEvent) :
    pipelineWith run_id (l1 ++ l2) p = pipelineWith run_id l2 (pipelineWith run_id l1 p) :=
  List.foldl_append _ _ _ _

theorem wrap_agent_node_length (run_id name : String) (fn : StageFn)
    (p : GraphState × List AuditEvent) :
    (wrap_agent_node run_id name fn p).2.length = p.2.length + 1 := by
  unfold wrap_agent_node
  cases fn p.1 p.2 <;> simp

theorem pipelineWith_length (run_id : String) (stages : List (String × StageFn))
    (p : GraphState × List AuditEvent) :
    (pipelineWith run_id stages p).2.length = p.2.length + stages.length := by
  induction stages generalizing p with
  | nil => rfl
  | cons st rest ih =>
    unfold pipelineWith at ih ⊢
    rw [List.foldl_cons, ih, wrap_agent_node_length]
    simp only [List.length_cons]
    omega

theorem wrap_agent_node_error (run_id name : String) (fn : StageFn)
    (p : GraphState × List AuditEvent) (msg : String)
    (hfail : fn p.1 p.2 = .error msg) :
    wrap_agent_node run_id name fn p
      = (forceEscalate name p.1,
         p.2 ++ [{ transaction_id := p.1.transaction_id, run_id := run_id,
                   seq := get_next_seq p.2 p.1.transaction_id,
                   agent := name ++ "_error", output_json := .err msg }]) := by
  unfold wrap_agent_node
  rw [hfail]

/-- C1 (amended): when a stage of the wrapped pipeline raises, the
wrapper appends exactly one audit event whose agent is the stage name
suffixed `_error` and whose `output_json.error` holds the raised
message; the pipeline does not abort — the remaining stages all run
(one audit event per stage, so the run completes with a full log); and
the state handed to the next stage carries the forced
ESCALATE_TO_HUMAN decision with
`hitl = (required := true, reason := "agent_error:<StageName>")`.  The
original claim's further assertion — that this forced outcome is the
run's *final* decision — fails: a later stage (the Arbiter) recomputes
`decision` and `hitl` from the metrics, see the counterexample. -/
theorem pipeline_error_handling (run_id name msg : String) (fn : StageFn)
    (pre post : List (String × StageFn)) (s0 : GraphState) (log0 : List AuditEvent)
    (hfail : fn (pipelineWith run_id pre (s0, log0)).1
        (pipelineWith run_id pre (s0, log0)).2 = .error msg) :
    ∃ ev : AuditEvent,
      ev.agent = name ++ "_error"
      ∧ ev.output_json = .err msg
      ∧ pipelineWith run_id (pre ++ (name, fn) :: post) (s0, log0)
          = pipelineWith run_id post
              (forceEscalate name (pipelineWith run_id pre (s0, log0)).1,
               (pipelineWith run_id pre (s0, log0)).2 ++ [ev])
      ∧ (forceEscalate name (pipelineWith run_id pre (s0, log0)).1).decision
          = some "ESCALATE_TO_HUMAN"
      ∧ (forceEscalate name (pipelineWith run_id pre (s0, log0)).1).hitl
          = { required := true, reason := "agent_error:" ++ name }
      ∧ (pipelineWith run_id (pre ++ (name, fn) :: post) (s0, log0)).2.length
          = log0.length + pre.length + 1 + post.length := by
  refine ⟨{ transaction_id := (pipelineWith run_id pre (s0, log0)).1.transaction_id
            run_id := run_id
            seq := get_next_seq (pipelineWith run_id pre (s0, log0)).2
              (pipelineWith run_id pre (s0, log0)).1.transaction_id
            agent := name ++ "_error"
            output_json := .err msg }, rfl, rfl, ?_, rfl, rfl, ?_⟩
  · rw [pipelineWith_append]
    unfold pipelineWith
    rw [List.foldl_cons]
    congr 1
    exact wrap_agent_node_error run_id name fn _ msg hfail
  · rw [pipelineWith_length]
    simp
    omega

/-- Witness for C1's amended theorem: a one-stage pipeline whose
context stage raises on an empty consolidated dict. -/
theorem pipeline_error_handling_witness :
    ∃ ev : AuditEvent,
      ev.agent = "TransactionContext" ++ "_error"
      ∧ ev.output_json = .err "KeyError: amount" := by
  obtain ⟨ev, h1, h2, -⟩ :=
    pipeline_error_handling "run-1" "TransactionContext" "KeyError: amount"
      (fun s _ => run_transaction_context_agent s) [] []
      (create_initial_state "T-1" {}) [] rfl
  exact ⟨ev, h1, h2⟩

/-- Dependencies of the counterexample run: the vector index and the
governed search both answer with no documents. -/
def emptyDeps : Deps := { ragResults := .ok [], searchResults := [] }

/-- The state reaching the Arbiter in the counterexample run: the
context stage failed (forcing the escalation outcome) and the seven
following stages ran on the escalated state. -/
def cexStateSeven : GraphState :=
  run_debate_pro_customer_agent (run_debate_pro_fraud_agent
    (run_evidence_aggregation_agent (run_threat_intel_agent []
      (run_policy_rag_agent []
        (run_behavioral_pattern_agent
          (forceEscalate "TransactionContext" (create_initial_state "T-1" {})))))))

theorem cex_arbiter_decision :
    (run_arbiter_agent cexStateSeven).decision = some "APPROVE"
    ∧ (run_arbiter_agent cexStateSeven).hitl = { required := false, reason := "" } := by
  have hstate : cexStateSeven
      = { transaction_id := "T-1"
          consolidated := {}
          signals := []
          metrics := { behavior_risk := some 0 }
          citations_internal := []
          citations_external := []
          evidence := some { signals := [], metrics := { behavior_risk := some 0 },
                             citations_internal := [], citations_external := [] }
          debate :=
            { pro_fraud := { recommended_decision := "CHALLENGE", confidence_delta := 0,
                             reasoning := "Señales de riesgo detectadas que requieren verificación adicional." }
              pro_customer := { recommended_decision := "APPROVE", confidence_delta := 0.03,
                                reasoning := "Bajo riesgo: señales menores que no justifican bloqueo o challenge." } }
          decision := some "ESCALATE_TO_HUMAN"
          confidence := none
          explanation_customer := none
          explanation_audit := none
          ai_summary := none
          hitl := { required := true, reason := "agent_error:" ++ "TransactionContext" } } := by
    unfold cexStateSeven
    norm_num [run_debate_pro_customer_agent, run_debate_pro_customer_agent_mock,
      run_debate_pro_fraud_agent, run_debate_pro_fraud_agent_mock,
      run_evidence_aggregation_agent, run_threat_intel_agent, run_policy_rag_agent,
      run_behavioral_pattern_agent, forceEscalate, create_initial_state,
      Metrics.amountRatioD, Metrics.hourOutsideD, Metrics.newCountryD,
      Metrics.newDeviceD, Metrics.behaviorRiskD, min_def, round2_zero]
  rw [hstate]
  constructor
  · norm_num [run_arbiter_agent, Metrics.amountRatioD, Metrics.hourOutsideD,
      Metrics.newCountryD, Metrics.newDeviceD, Metrics.behaviorRiskD,
      min_def, max_def]
  · norm_num [run_arbiter_agent, Metrics.amountRatioD, Metrics.hourOutsideD,
      Metrics.newCountryD, Metrics.newDeviceD, Metrics.behaviorRiskD,
      min_def, max_def]
    decide

/-- C1 counterexample: a full run of the source pipeline on an empty
consolidated dict.  The context stage raises (its `_error` audit event
is recorded and the escalation outcome is forced at that point), every
remaining stage still runs — but the Arbiter later recomputes the
decision from the (empty) metrics, so the run's final decision is
APPROVE, not ESCALATE_TO_HUMAN, its final HITL flag is not required and
carries no `agent_error` reason, and no HITL case is opened. -/
theorem pipeline_error_counterexample :
    (run_fraud_detection emptyDeps "run-1" "HITL-X" "t0" "T-1" {} [] []).1.decision
        = some "APPROVE"
    ∧ (run_fraud_detection emptyDeps "run-1" "HITL-X" "t0" "T-1" {} [] []).1.hitl
        = { required := false, reason := "" }
    ∧ ((run_fraud_detection emptyDeps "run-1" "HITL-X" "t0" "T-1" {} [] []).2.1.map
          (fun e => e.agent))
        = ["TransactionContext_error", "BehavioralPattern", "PolicyRAG", "ThreatIntel",
           "EvidenceAggregation", "DebateProFraud", "DebateProCustomer", "Arbiter",
           "Explainability"]
    ∧ (run_fraud_detection emptyDeps "run-1" "HITL-X" "t0" "T-1" {} [] []).2.2 = [] := by
  have hdec : (run_fraud_detection emptyDeps "run-1" "HITL-X" "t0" "T-1" {} [] []).1.decision
      = (run_arbiter_agent cexStateSeven).decision := rfl
  have hhitl : (run_fraud_detection emptyDeps "run-1" "HITL-X" "t0" "T-1" {} [] []).1.hitl
      = (run_arbiter_agent cexStateSeven).hitl := rfl
  obtain ⟨hd, hh⟩ := cex_arbiter_decision
  refine ⟨hdec.trans hd, hhitl.trans hh, ?_, ?_⟩
  · rfl
  · have hgate : (run_fraud_detection emptyDeps "run-1" "HITL-X" "t0" "T-1" {} [] []).2.2
        = create_hitl_gate "HITL-X" "t0"
            (run_fraud_detection emptyDeps "run-1" "HITL-X" "t0" "T-1" {} [] []).1 [] := rfl
    rw [hgate]
    unfold create_hitl_gate
    rw [show (run_fraud_detection emptyDeps "run-1" "HITL-X" "t0" "T-1" {} [] []).1.hitl.required
        = false from by rw [hhitl, hh]]
    simp

end FraudSpec
